import Mathlib

/-!
Verification of the route-synthesis and map-state-management engine of
`src/script.js` (Biratnagar traffic demo).

The JavaScript source is shallowly embedded:
* coordinates become rationals (`ℚ`): the script only adds, subtracts,
  halves and compares decimal constants, all exact in `ℚ`;
* the pure route/hazard synthesis of `findRoute` (lines 113-147) becomes
  pure functions on `Coord`;
* the success/failure flow of `findRoute` (validation at lines 84-90,
  geocoding at lines 96-97, the catch at line 174) becomes `findRouteRun`,
  which also counts how many times the external geocoder is invoked;
* the Leaflet layer bookkeeping (globals `routeA`, `routeB`,
  `startMarker`, `endMarker`, `hazardMarkers`, the map's layer set, and
  `clearMap` at lines 189-198) becomes the `World` state with explicit
  layer-id allocation.
-/

namespace BiratnagarTraffic

/-- A geographic point, as the `{lat, lon}` pairs the script manipulates. -/
structure Coord where
  lat : ℚ
  lon : ℚ
deriving DecidableEq

/-- The value `geocodeLocation` resolves to (lines 73-77):
latitude, longitude and a display name. -/
structure ResolvedPlace where
  lat : ℚ
  lon : ℚ
  display : String
deriving DecidableEq

/-- Forget the display name of a resolved place. -/
def ResolvedPlace.toCoord (p : ResolvedPlace) : Coord := ⟨p.lat, p.lon⟩

/-- `midLat` of line 113: `(start.lat + end.lat) / 2`. -/
def midLat (s e : Coord) : ℚ := (s.lat + e.lat) / 2

/-- `midLon` of line 114: `(start.lon + end.lon) / 2`. -/
def midLon (s e : Coord) : ℚ := (s.lon + e.lon) / 2

/-- `routeAcoords` of lines 116-120: start, midpoint pushed north by
`0.15` degrees of latitude, end. -/
def routeAcoords (s e : Coord) : List Coord :=
  [s, ⟨midLat s e + 0.15, midLon s e⟩, e]

/-- `routeBcoords` of lines 122-126: start, midpoint pushed south by
`0.15` degrees of latitude, end. -/
def routeBcoords (s e : Coord) : List Coord :=
  [s, ⟨midLat s e - 0.15, midLon s e⟩, e]

/-- One `{type, reason}` entry of the hazard catalog. -/
structure HazardTemplate where
  type : String
  reason : String
deriving DecidableEq

/-- The `simulatedHazards` catalog of lines 21-25, in source order. -/
def simulatedHazards : List HazardTemplate :=
  [⟨"Flooding", "Heavy rainfall reported"⟩,
   ⟨"Construction", "Ongoing road maintenance"⟩,
   ⟨"Congestion", "High traffic volume"⟩]

/-- A placed hazard marker: catalog data plus the position computed at
line 136. -/
structure HazardInfo where
  type : String
  reason : String
  pos : Coord
deriving DecidableEq

/-- The hazard placement loop of lines 134-147: entry `i` of the catalog
is placed at `(midLat + i * 0.05, midLon - i * 0.05)`. -/
def placeHazards (mid : Coord) : List HazardInfo :=
  simulatedHazards.enum.map fun p =>
    ⟨p.2.type, p.2.reason, ⟨mid.lat + (p.1 : ℚ) * 0.05, mid.lon - (p.1 : ℚ) * 0.05⟩⟩

/-- Everything a successful `findRoute` computes from the two resolved
places: the endpoints and the synthesized routes and hazards. -/
structure Session where
  startPlace : ResolvedPlace
  endPlace : ResolvedPlace
  routeA : List Coord
  routeB : List Coord
  hazards : List HazardInfo
deriving DecidableEq

/-- The data flow of lines 96-147 from the two geocoder results. -/
def buildSession (s e : ResolvedPlace) : Session :=
  ⟨s, e,
   routeAcoords s.toCoord e.toCoord,
   routeBcoords s.toCoord e.toCoord,
   placeHazards ⟨midLat s.toCoord e.toCoord, midLon s.toCoord e.toCoord⟩⟩

/-- How one call of `findRoute` ends: the validation alert of line 88,
the catch branch of lines 174-183, or a full session. -/
inductive Outcome where
  | validationAlert : Outcome
  | failure : String → Outcome
  | success : Session → Outcome
deriving DecidableEq

/-- JS `String.prototype.trim` as used at lines 84-85: strip leading and
trailing whitespace. Stated by structural recursion on the character
list so that applications reduce. -/
def trimStr (s : String) : String :=
  ⟨((s.data.dropWhile Char.isWhitespace).reverse.dropWhile
      Char.isWhitespace).reverse⟩

/-- The control flow of `findRoute` (lines 83-184) around an abstract
geocoder, paired with the number of geocoder calls it makes: the inputs
are trimmed, empty input alerts before any geocoding, then the start and
the end are geocoded in order, each failure caught. -/
def findRouteRun (startRaw endRaw : String)
    (geocode : String → Except String ResolvedPlace) : Outcome × Nat :=
  let startName := trimStr startRaw
  let endName := trimStr endRaw
  if startName = "" ∨ endName = "" then (Outcome.validationAlert, 0)
  else
    match geocode startName with
    | Except.error msg => (Outcome.failure msg, 1)
    | Except.ok s =>
      match geocode endName with
      | Except.error msg => (Outcome.failure msg, 2)
      | Except.ok e => (Outcome.success (buildSession s e), 2)

/-- Claim C1: for every pair of resolved coordinates, the two synthesized
paths have exactly 3 points, both begin at `start` and end at `end`, path
A's interior point is `((start.lat+end.lat)/2 + 0.15, (start.lon+end.lon)/2)`
and path B's interior point is `((start.lat+end.lat)/2 - 0.15,
(start.lon+end.lon)/2)`. -/
theorem routes_three_points_with_offset_midpoints (s e : Coord) :
    (routeAcoords s e).length = 3 ∧ (routeBcoords s e).length = 3 ∧
    (routeAcoords s e)[0]? = some s ∧ (routeAcoords s e)[2]? = some e ∧
    (routeBcoords s e)[0]? = some s ∧ (routeBcoords s e)[2]? = some e ∧
    (routeAcoords s e)[1]? =
      some ⟨(s.lat + e.lat) / 2 + 0.15, (s.lon + e.lon) / 2⟩ ∧
    (routeBcoords s e)[1]? =
      some ⟨(s.lat + e.lat) / 2 - 0.15, (s.lon + e.lon) / 2⟩ := by
  simp [routeAcoords, routeBcoords, midLat, midLon]

/-- Claim C2: for every corridor midpoint the annotator yields exactly 3
hazards, the `i`-th at `(mid.lat + i*0.05, mid.lon - i*0.05)` carrying the
`i`-th catalog entry, in the order Flooding / Construction / Congestion. -/
theorem hazards_fixed_catalog_and_spacing (mid : Coord) :
    (placeHazards mid).length = 3 ∧
    (placeHazards mid)[0]? =
      some ⟨"Flooding", "Heavy rainfall reported", ⟨mid.lat, mid.lon⟩⟩ ∧
    (placeHazards mid)[1]? =
      some ⟨"Construction", "Ongoing road maintenance",
            ⟨mid.lat + 0.05, mid.lon - 0.05⟩⟩ ∧
    (placeHazards mid)[2]? =
      some ⟨"Congestion", "High traffic volume",
            ⟨mid.lat + 2 * 0.05, mid.lon - 2 * 0.05⟩⟩ := by
  refine ⟨rfl, ?_, ?_, ?_⟩ <;>
    simp [placeHazards, simulatedHazards, List.enum, HazardInfo.mk.injEq,
      Coord.mk.injEq]

/-- The two selectable routes. -/
inductive RouteId where
  | A
  | B
deriving DecidableEq

/-- The `result` markup written by the click handlers of lines 158-172.
Each handler writes a fixed string; neither consults the geometry. -/
def routeClickHtml : RouteId → String
  | RouteId.A =>
      "\n<div class=\"route-selected\">\n🔴 <b>Route A Selected</b><br>\nRecommended when speed is critical.\n</div>"
  | RouteId.B =>
      "\n<div class=\"route-selected\">\n🟢 <b>Route B Selected</b><br>\nRecommended for safer and consistent travel.\n</div>"

/-- Selecting a route in a session: the handlers installed at lines
158-172 ignore the session's geometry entirely. -/
def selectRoute (_sess : Session) (id : RouteId) : String :=
  routeClickHtml id

/-- `needle` occurs contiguously inside `hay`. -/
def strContains (hay needle : String) : Bool :=
  (List.range (hay.data.length + 1)).any fun k =>
    needle.data.isPrefixOf (hay.data.drop k)

/-- The session of the spec's end-to-end example: Pokhara to Kathmandu. -/
def demoSession : Session :=
  buildSession ⟨28.2096, 83.9856, "Pokhara"⟩ ⟨27.7172, 85.3240, "Kathmandu"⟩

theorem clickA_text_occurs :
    strContains (routeClickHtml RouteId.A)
      "Recommended when speed is critical." = true := by decide

theorem clickB_text_occurs :
    strContains (routeClickHtml RouteId.B)
      "Recommended for safer and consistent travel." = true := by decide

/-- Claim C4 (counterexample): selecting route B does not yield the
claimed text "recommended for safer, more reliable travel" — not even
case-insensitively does "more reliable" occur; the code instead says
"Recommended for safer and consistent travel.". -/
theorem clickB_text_not_as_claimed :
    strContains (selectRoute demoSession RouteId.B)
      "recommended for safer, more reliable travel" = false ∧
    strContains (selectRoute demoSession RouteId.B) "reliable" = false ∧
    strContains (selectRoute demoSession RouteId.B) "Reliable" = false ∧
    strContains (selectRoute demoSession RouteId.B)
      "Recommended for safer and consistent travel." = true := by
  refine ⟨?_, ?_, ?_, ?_⟩ <;> decide

/-- Claim C4 (amended): for every session — regardless of geometry —
selecting A yields the speed-critical explanation "Recommended when speed
is critical." and selecting B yields the safer explanation "Recommended
for safer and consistent travel.". -/
theorem select_explanations_fixed (sess : Session) :
    strContains (selectRoute sess RouteId.A)
      "Recommended when speed is critical." = true ∧
    strContains (selectRoute sess RouteId.B)
      "Recommended for safer and consistent travel." = true :=
  ⟨clickA_text_occurs, clickB_text_occurs⟩

/-- Claim C5: whenever one of the two inputs trims to the empty string,
`findRoute` ends in the validation alert and never calls the geocoder. -/
theorem empty_input_validation_no_geocode (startRaw endRaw : String)
    (geocode : String → Except String ResolvedPlace)
    (h : trimStr startRaw = "" ∨ trimStr endRaw = "") :
    findRouteRun startRaw endRaw geocode = (Outcome.validationAlert, 0) := by
  rcases h with h | h <;> simp [findRouteRun, h]

/-- Witness for C5 at the spec's own example `search("", "Kathmandu")`. -/
theorem empty_input_validation_no_geocode_witness :
    (trimStr "" = "" ∨ trimStr "Kathmandu" = "") ∧
    findRouteRun "" "Kathmandu" (fun _ => Except.error "down")
      = (Outcome.validationAlert, 0) :=
  ⟨Or.inl (by decide),
   empty_input_validation_no_geocode "" "Kathmandu" _ (Or.inl (by decide))⟩

/-- A resolver result far outside the legal coordinate ranges. -/
def badPlace : ResolvedPlace := ⟨100, 200, "Nowhere"⟩

/-- Claim C8 (counterexample): with a resolver returning latitude 100
(out of `[-90, 90]`) and longitude 200 (out of `[-180, 180]`), the search
succeeds and synthesizes routes; no InvalidCoordinate error exists. -/
theorem out_of_range_coordinates_accepted :
    (¬ (-90 ≤ badPlace.lat ∧ badPlace.lat ≤ 90)) ∧
    (¬ (-180 ≤ badPlace.lon ∧ badPlace.lon ≤ 180)) ∧
    findRouteRun "a" "b" (fun _ => Except.ok badPlace)
      = (Outcome.success (buildSession badPlace badPlace), 2) := by
  refine ⟨by decide, by decide, rfl⟩

/-- Claim C8 (amended): the code validates no coordinate ranges at all —
whenever both inputs are nonempty after trimming and the resolver
succeeds, the search succeeds with the session built from whatever
coordinates the resolver returned, in range or not. -/
theorem no_coordinate_validation (startRaw endRaw : String)
    (geocode : String → Except String ResolvedPlace) (ps pe : ResolvedPlace)
    (hs : ¬ trimStr startRaw = "") (he : ¬ trimStr endRaw = "")
    (hgs : geocode (trimStr startRaw) = Except.ok ps)
    (hge : geocode (trimStr endRaw) = Except.ok pe) :
    findRouteRun startRaw endRaw geocode
      = (Outcome.success (buildSession ps pe), 2) := by
  simp [findRouteRun, hs, he, hgs, hge]

/-- Witness for the amended C8, at the out-of-range resolver stub. -/
theorem no_coordinate_validation_witness :
    (¬ trimStr "a" = "") ∧ (¬ trimStr "b" = "") ∧
    findRouteRun "a" "b" (fun _ => Except.ok badPlace)
      = (Outcome.success (buildSession badPlace badPlace), 2) :=
  ⟨by decide, by decide,
   no_coordinate_validation "a" "b" _ badPlace badPlace
     (by decide) (by decide) rfl rfl⟩

/-- A sample point for degenerate-route counterexamples. -/
def p0 : Coord := ⟨27, 85⟩

/-- Claim C7 (counterexample): with `start = end = (27, 85)` the
synthesized candidates do not degenerate to a single point pair: route
A's interior point is `(27.15, 85)`, distinct from the endpoint, route A
is neither the two-point nor the three-point constant path at `(27, 85)`,
and the two candidates diverge from each other. -/
theorem identical_endpoints_not_degenerate :
    (routeAcoords p0 p0)[1]? = some ⟨27.15, 85⟩ ∧
    (⟨27.15, 85⟩ : Coord) ≠ p0 ∧
    routeAcoords p0 p0 ≠ [p0, p0] ∧
    routeAcoords p0 p0 ≠ [p0, p0, p0] ∧
    routeAcoords p0 p0 ≠ routeBcoords p0 p0 := by
  refine ⟨?_, ?_, ?_, ?_, ?_⟩ <;>
    simp [routeAcoords, routeBcoords, midLat, midLon, p0, Coord.mk.injEq] <;>
    norm_num

/-- Claim C7 (amended): with identical endpoints the synthesis is still
total — no division by zero, no failure — and returns two candidates with
identical endpoints whose interior points sit `0.15` degrees of latitude
north respectively south of the common point. -/
theorem identical_endpoints_total (p : Coord) :
    routeAcoords p p = [p, ⟨p.lat + 0.15, p.lon⟩, p] ∧
    routeBcoords p p = [p, ⟨p.lat - 0.15, p.lon⟩, p] := by
  simp [routeAcoords, routeBcoords, midLat, midLon, Coord.mk.injEq]

/-- Claim C10: for every coordinate pair — identical endpoints included —
the candidates share both endpoints and their interior longitudes, the
interior latitude of A exceeds that of B by exactly `0.3`, and the two
candidate paths are never equal. -/
theorem candidates_never_identical (s e : Coord) :
    (routeAcoords s e)[0]? = (routeBcoords s e)[0]? ∧
    (routeAcoords s e)[2]? = (routeBcoords s e)[2]? ∧
    (routeAcoords s e)[1]? = some ⟨midLat s e + 0.15, midLon s e⟩ ∧
    (routeBcoords s e)[1]? = some ⟨midLat s e - 0.15, midLon s e⟩ ∧
    (midLat s e + 0.15) - (midLat s e - 0.15) = 0.3 ∧
    routeAcoords s e ≠ routeBcoords s e := by
  refine ⟨rfl, rfl, rfl, rfl, by ring, ?_⟩
  intro hEq
  have h1 : (⟨midLat s e + 0.15, midLon s e⟩ : Coord)
      = ⟨midLat s e - 0.15, midLon s e⟩ := by
    have := congrArg (fun l => l[1]?) hEq
    simpa [routeAcoords, routeBcoords] using this
  have h2 : midLat s e + 0.15 = midLat s e - 0.15 :=
    congrArg Coord.lat h1
  have h3 : (0.15 : ℚ) = -0.15 := by linarith
  norm_num at h3

/-- Witness for C10's distinctness at a concrete pair. -/
theorem candidates_never_identical_witness :
    routeAcoords p0 ⟨28, 86⟩ ≠ routeBcoords p0 ⟨28, 86⟩ :=
  (candidates_never_identical p0 ⟨28, 86⟩).2.2.2.2.2

/-- The script's mutable map/overlay state: the set of overlay layer ids
currently on the Leaflet map, the globals of lines 14-16 (`routeA`,
`routeB`, `startMarker`, `endMarker`, `hazardMarkers`), and a counter
allocating fresh layer ids. Layer ids abstract the Leaflet layer objects;
`map.setView`, popups and `fitBounds` change no overlays and are elided. -/
structure World where
  mapLayers : Finset ℕ
  routeA : Option ℕ
  routeB : Option ℕ
  startMarker : Option ℕ
  endMarker : Option ℕ
  hazardMarkers : List ℕ
  nextId : ℕ
deriving DecidableEq

/-- `map.removeLayer` guarded by `if (x)` — removing a layer that is not
on the map is a no-op, and an unset global removes nothing. -/
def eraseOpt (m : Finset ℕ) : Option ℕ → Finset ℕ
  | none => m
  | some i => m.erase i

/-- `clearMap` of lines 189-198: remove `routeA`, `routeB`,
`startMarker`, `endMarker` and every hazard marker from the map and reset
`hazardMarkers` to `[]`. The four globals themselves are left set, as in
the source. -/
def clearMap (w : World) : World :=
  { w with
    mapLayers :=
      w.hazardMarkers.foldl (fun m i => m.erase i)
        (eraseOpt (eraseOpt (eraseOpt (eraseOpt w.mapLayers w.routeA)
          w.routeB) w.startMarker) w.endMarker),
    hazardMarkers := [] }

/-- `.addTo(map)`: a fresh layer appears on the map. -/
def addLayer (w : World) : World :=
  { w with mapLayers := insert w.nextId w.mapLayers, nextId := w.nextId + 1 }

/-- The overlay installation of a successful `findRoute` body (lines
100-147), in source order: start marker, end marker, polyline A, polyline
B, then the three hazard markers, each pushed onto `hazardMarkers`. -/
def installOverlays (w : World) : World :=
  let w1 := { addLayer w with startMarker := some w.nextId }
  let w2 := { addLayer w1 with endMarker := some w1.nextId }
  let w3 := { addLayer w2 with routeA := some w2.nextId }
  let w4 := { addLayer w3 with routeB := some w3.nextId }
  let w5 := { addLayer w4 with hazardMarkers := w4.hazardMarkers ++ [w4.nextId] }
  let w6 := { addLayer w5 with hazardMarkers := w5.hazardMarkers ++ [w5.nextId] }
  { addLayer w6 with hazardMarkers := w6.hazardMarkers ++ [w6.nextId] }

/-- One complete successful `findRoute` call on the map state: `clearMap`
at line 92, then — once both geocodes resolve — the overlay installation. -/
def findRouteSuccess (w : World) : World :=
  installOverlays (clearMap w)

/-- The seven layer ids a search installs when the allocator stands at
`n`: start marker, end marker, the two polylines, three hazard markers. -/
def sessionIds (n : ℕ) : Finset ℕ :=
  {n, n + 1, n + 2, n + 3, n + 4, n + 5, n + 6}

/-- No session is active: no globals set, no hazard markers tracked. -/
def NoOverlays (w : World) : Prop :=
  w.routeA = none ∧ w.routeB = none ∧ w.startMarker = none ∧
    w.endMarker = none ∧ w.hazardMarkers = []

/-- A map state before any search: nothing tracked, allocator at zero. -/
def w0 : World := ⟨∅, none, none, none, none, [], 0⟩

theorem mem_eraseOpt {m : Finset ℕ} {o : Option ℕ} {i : ℕ} :
    i ∈ eraseOpt m o ↔ i ∈ m ∧ o ≠ some i := by
  cases o <;> simp [eraseOpt, Finset.mem_erase, eq_comm] <;> tauto

theorem mem_foldlErase {l : List ℕ} {s : Finset ℕ} {i : ℕ} :
    i ∈ l.foldl (fun m j => m.erase j) s ↔ i ∈ s ∧ i ∉ l := by
  induction l generalizing s with
  | nil => simp
  | cons a t ih => simp [List.foldl, ih, Finset.mem_erase]; tauto

theorem mem_clearMap {w : World} {i : ℕ} :
    i ∈ (clearMap w).mapLayers ↔
      i ∈ w.mapLayers ∧ w.routeA ≠ some i ∧ w.routeB ≠ some i ∧
        w.startMarker ≠ some i ∧ w.endMarker ≠ some i ∧
        i ∉ w.hazardMarkers := by
  simp [clearMap, mem_foldlErase, mem_eraseOpt]; tauto

theorem installOverlays_mapLayers (w : World) :
    (installOverlays w).mapLayers =
      insert (w.nextId + 6) (insert (w.nextId + 5) (insert (w.nextId + 4)
        (insert (w.nextId + 3) (insert (w.nextId + 2) (insert (w.nextId + 1)
          (insert w.nextId w.mapLayers)))))) := by
  simp [installOverlays, addLayer]

theorem mem_installOverlays {w : World} {i : ℕ} :
    i ∈ (installOverlays w).mapLayers ↔
      i ∈ w.mapLayers ∨ (w.nextId ≤ i ∧ i ≤ w.nextId + 6) := by
  rw [installOverlays_mapLayers]
  simp only [Finset.mem_insert]
  by_cases hm : i ∈ w.mapLayers <;> simp [hm] <;> omega

theorem installOverlays_fields (w : World) :
    (installOverlays w).startMarker = some w.nextId ∧
    (installOverlays w).endMarker = some (w.nextId + 1) ∧
    (installOverlays w).routeA = some (w.nextId + 2) ∧
    (installOverlays w).routeB = some (w.nextId + 3) ∧
    (installOverlays w).hazardMarkers =
      w.hazardMarkers ++ [w.nextId + 4, w.nextId + 5, w.nextId + 6] ∧
    (installOverlays w).nextId = w.nextId + 7 := by
  simp [installOverlays, addLayer]

theorem clearMap_fields (w : World) :
    (clearMap w).routeA = w.routeA ∧ (clearMap w).routeB = w.routeB ∧
    (clearMap w).startMarker = w.startMarker ∧
    (clearMap w).endMarker = w.endMarker ∧
    (clearMap w).hazardMarkers = [] ∧ (clearMap w).nextId = w.nextId := by
  simp [clearMap]

theorem findRouteSuccess_fields (w : World) :
    (findRouteSuccess w).startMarker = some w.nextId ∧
    (findRouteSuccess w).endMarker = some (w.nextId + 1) ∧
    (findRouteSuccess w).routeA = some (w.nextId + 2) ∧
    (findRouteSuccess w).routeB = some (w.nextId + 3) ∧
    (findRouteSuccess w).hazardMarkers =
      [w.nextId + 4, w.nextId + 5, w.nextId + 6] ∧
    (findRouteSuccess w).nextId = w.nextId + 7 := by
  refine ⟨?_, ?_, ?_, ?_, ?_, ?_⟩ <;>
    simp [findRouteSuccess, installOverlays, addLayer, clearMap]

theorem mem_findRouteSuccess {w : World} {i : ℕ} :
    i ∈ (findRouteSuccess w).mapLayers ↔
      i ∈ (clearMap w).mapLayers ∨ (w.nextId ≤ i ∧ i ≤ w.nextId + 6) := by
  rw [findRouteSuccess, mem_installOverlays, (clearMap_fields w).2.2.2.2.2]

/-- Claim C6: `clearMap` on a state with no session or overlays is a
no-op — it is total, hence never an error — and clearing twice is the
same as clearing once. -/
theorem clear_noop_and_idempotent :
    (∀ w : World, NoOverlays w → clearMap w = w) ∧
    (∀ w : World, clearMap (clearMap w) = clearMap w) := by
  constructor
  · intro w h
    obtain ⟨ha, hb, hsm, hem, hh⟩ := h
    cases w
    simp_all [clearMap, eraseOpt]
  · intro w
    cases w with
    | mk m a b sm em hz n =>
      simp only [clearMap, List.foldl_nil, World.mk.injEq, and_true, true_and]
      apply Finset.ext
      intro i
      simp only [mem_eraseOpt, mem_foldlErase]
      tauto

/-- Witness for C6 at the pristine map state. -/
theorem clear_noop_and_idempotent_witness :
    NoOverlays w0 ∧ clearMap w0 = w0 ∧
      clearMap (clearMap w0) = clearMap w0 :=
  ⟨⟨rfl, rfl, rfl, rfl, rfl⟩,
   clear_noop_and_idempotent.1 w0 ⟨rfl, rfl, rfl, rfl, rfl⟩,
   clear_noop_and_idempotent.2 w0⟩

/-- Claim C3: across two successive successful searches — assuming the
allocator is ahead of every layer already on the map — the final map
carries exactly the second session's seven overlays (besides whatever
non-session layers survived the first clear), and none of the first
session's overlays remain. -/
theorem second_search_owns_all_overlays (w : World)
    (hfresh : ∀ i ∈ w.mapLayers, i < w.nextId) :
    ((findRouteSuccess (findRouteSuccess w)).mapLayers
      = (clearMap w).mapLayers ∪ sessionIds (w.nextId + 7)) ∧
    ∀ i ∈ sessionIds w.nextId,
      i ∉ (findRouteSuccess (findRouteSuccess w)).mapLayers := by
  have hf := findRouteSuccess_fields w
  have haux : ∀ i : ℕ,
      i ∈ (findRouteSuccess (findRouteSuccess w)).mapLayers ↔
        i ∈ (clearMap w).mapLayers ∨
          (w.nextId + 7 ≤ i ∧ i ≤ w.nextId + 13) := by
    intro i
    rw [mem_findRouteSuccess, mem_clearMap, mem_findRouteSuccess,
      hf.1, hf.2.1, hf.2.2.1, hf.2.2.2.1, hf.2.2.2.2.1, hf.2.2.2.2.2]
    by_cases hA : i ∈ (clearMap w).mapLayers
    · have hlt : i < w.nextId := hfresh i (mem_clearMap.mp hA).1
      simp [hA] <;> omega
    · simp [hA] <;> omega
  constructor
  · apply Finset.ext
    intro i
    rw [haux i, Finset.mem_union]
    by_cases hA : i ∈ (clearMap w).mapLayers <;>
      simp [sessionIds, hA] <;> omega
  · intro i hi
    rw [haux i]
    simp only [sessionIds, Finset.mem_insert, Finset.mem_singleton] at hi
    rintro (hA | hrange)
    · have := hfresh i (mem_clearMap.mp hA).1
      omega
    · omega

/-- Witness for C3 from the pristine map state. -/
theorem second_search_owns_all_overlays_witness :
    ((findRouteSuccess (findRouteSuccess w0)).mapLayers
      = (clearMap w0).mapLayers ∪ sessionIds (w0.nextId + 7)) ∧
    ∀ i ∈ sessionIds w0.nextId,
      i ∉ (findRouteSuccess (findRouteSuccess w0)).mapLayers :=
  second_search_owns_all_overlays w0
    (fun i hi => absurd hi (Finset.not_mem_empty i))

/-- Claim C9 (counterexample): from the pristine map, run search 1 up to
its first await (it has already called `clearMap`), then search 2 up to
its first await, let search 2 finish and install session layers 0-6, then
let the stale search 1 resume and install layers 7-13 — the code has no
generation token, so nothing stops it. Afterwards the session globals
point at the stale search's start marker (7, not 0) and the superseded
second session's layer 0 is still on the map next to layer 7. -/
theorem stale_search_counterexample :
    (installOverlays (clearMap (clearMap w0))).startMarker = some 0 ∧
    (installOverlays (installOverlays (clearMap (clearMap w0)))).startMarker
      = some 7 ∧
    (7 : ℕ) ≠ 0 ∧
    0 ∈ (installOverlays (installOverlays (clearMap (clearMap w0)))).mapLayers ∧
    7 ∈ (installOverlays (installOverlays (clearMap (clearMap w0)))).mapLayers := by
  refine ⟨?_, ?_, ?_, ?_, ?_⟩ <;> decide

/-- Claim C9 (amended): there is no cancellation of stale searches. In
the schedule where a slow search 1 reaches its first await, a fast search
2 then runs to completion, and search 1's resolution finally arrives,
search 1 installs its overlays over the live session: the session globals
end up pointing at the stale search's layers while the whole layer set of
the superseded second session is still on the map. -/
theorem stale_search_overwrites_session (w : World) :
    (installOverlays (clearMap (clearMap w))).startMarker = some w.nextId ∧
    (installOverlays (installOverlays (clearMap (clearMap w)))).startMarker
      = some (w.nextId + 7) ∧
    (installOverlays (installOverlays (clearMap (clearMap w)))).startMarker
      ≠ (installOverlays (clearMap (clearMap w))).startMarker ∧
    sessionIds w.nextId
      ⊆ (installOverlays (installOverlays (clearMap (clearMap w)))).mapLayers ∧
    sessionIds (w.nextId + 7)
      ⊆ (installOverlays (installOverlays (clearMap (clearMap w)))).mapLayers := by
  have hn : (clearMap (clearMap w)).nextId = w.nextId := by simp [clearMap]
  have h1 := installOverlays_fields (clearMap (clearMap w))
  have h2 := installOverlays_fields (installOverlays (clearMap (clearMap w)))
  have hs : (installOverlays (clearMap (clearMap w))).startMarker
      = some w.nextId := by rw [h1.1, hn]
  have hnext : (installOverlays (clearMap (clearMap w))).nextId
      = w.nextId + 7 := by rw [h1.2.2.2.2.2, hn]
  have hs2 : (installOverlays (installOverlays (clearMap (clearMap w)))).startMarker
      = some (w.nextId + 7) := by rw [h2.1, hnext]
  refine ⟨hs, hs2, ?_, ?_, ?_⟩
  · rw [hs, hs2]
    intro h
    have := Option.some.inj h
    omega
  · intro i hi
    simp only [sessionIds, Finset.mem_insert, Finset.mem_singleton] at hi
    rw [mem_installOverlays, mem_installOverlays, hn, hnext]
    exact Or.inl (Or.inr (by omega))
  · intro i hi
    simp only [sessionIds, Finset.mem_insert, Finset.mem_singleton] at hi
    rw [mem_installOverlays, hnext]
    exact Or.inr (by omega)

/-- Witness for the amended C9 at the pristine map state. -/
theorem stale_search_overwrites_session_witness :
    (installOverlays (clearMap (clearMap w0))).startMarker = some w0.nextId ∧
    (installOverlays (installOverlays (clearMap (clearMap w0)))).startMarker
      = some (w0.nextId + 7) ∧
    (installOverlays (installOverlays (clearMap (clearMap w0)))).startMarker
      ≠ (installOverlays (clearMap (clearMap w0))).startMarker ∧
    sessionIds w0.nextId
      ⊆ (installOverlays (installOverlays (clearMap (clearMap w0)))).mapLayers ∧
    sessionIds (w0.nextId + 7)
      ⊆ (installOverlays (installOverlays (clearMap (clearMap w0)))).mapLayers :=
  stale_search_overwrites_session w0

end BiratnagarTraffic
